import Mathlib

/-
Verification development for the payment-driven lifecycle engine of a
classifieds marketplace. Data model definitions are translated from
src/app/models.py; the reconciliation engine, quota ledger and state
machine operations are not present under src (only the data model is),
so they are modelled from the specification, as marked on each
definition. Datetimes and dates are modelled as integer ticks (days),
decimals as integers in minor units.
-/

/-- PaymentStatus enum from src/app/models.py lines 30-35. -/
inductive PaymentStatus where
  | pending
  | completed
  | failed
  | cancelled
  | refunded
deriving DecidableEq

/-- MembershipStatus enum from src/app/models.py lines 38-41. -/
inductive MembershipStatus where
  | active
  | inactive
  | expired
deriving DecidableEq

/-- PaymentType enum from src/app/models.py lines 44-46. -/
inductive PaymentType where
  | membership
  | ad_boost
deriving DecidableEq

/-- AdStatus enum from src/app/models.py lines 21-27. -/
inductive AdStatus where
  | draft
  | active
  | under_review
  | rejected
  | expired
  | deleted
deriving DecidableEq

/-- MembershipPackage from src/app/models.py lines 87-101, restricted to the
fields the lifecycle engine reads (price in minor units, durations in days). -/
structure MembershipPackage where
  id : Nat
  price : Int
  duration_days : Int
  max_ads : Int
  boost_credits : Int
deriving DecidableEq

/-- UserMembership from src/app/models.py lines 108-121. Counters are Int,
mirroring the unconstrained Python int columns; dates are day ordinals. -/
structure UserMembership where
  id : Nat
  user_id : Nat
  package_id : Nat
  status : MembershipStatus
  start_date : Int
  end_date : Int
  remaining_boost_credits : Int
  remaining_ads : Int
  auto_renew : Bool
deriving DecidableEq

/-- Ad from src/app/models.py lines 128-156, restricted to the lifecycle
fields (descriptive fields are out of scope for the engine). -/
structure Ad where
  id : Nat
  user_id : Nat
  category_id : Nat
  status : AdStatus
  is_boosted : Bool
  boost_expires_at : Option Int
  expires_at : Option Int
deriving DecidableEq

/-- Payment from src/app/models.py lines 175-198. The field
boost_duration_days is Modelled from the spec: the ExtendBoost side effect
carries a duration_days value which the schema keeps inside the opaque
payment_details JSON blob; it is embedded here as an explicit field. -/
structure Payment where
  id : Option Nat
  user_id : Nat
  membership_package_id : Option Nat
  boosted_ad_id : Option Nat
  payment_type : PaymentType
  amount : Int
  currency : String
  status : PaymentStatus
  midtrans_order_id : String
  midtrans_transaction_id : Option String
  paid_at : Option Int
  expires_at : Option Int
  boost_duration_days : Int
deriving DecidableEq

/-- Constructs a Payment the way the schema defaults do at creation
(src/app/models.py lines 178-193): status defaults to pending, paid_at,
transaction id, id and expires_at default to None, currency to IDR. -/
def mkPayment (uid : Nat) (ptype : PaymentType) (amount : Int) (oid : String)
    (mpid : Option Nat) (baid : Option Nat) (bdur : Int) : Payment :=
  { id := none
    user_id := uid
    membership_package_id := mpid
    boosted_ad_id := baid
    payment_type := ptype
    amount := amount
    currency := "IDR"
    status := PaymentStatus.pending
    midtrans_order_id := oid
    midtrans_transaction_id := none
    paid_at := none
    expires_at := none
    boost_duration_days := bdur }

/-- Constructs a UserMembership with the schema defaults
(src/app/models.py lines 111-121): status active, counters zero,
auto_renew false, start date today. -/
def mkUserMembership (mid : Nat) (uid : Nat) (pid : Nat) (today : Int)
    (endd : Int) : UserMembership :=
  { id := mid
    user_id := uid
    package_id := pid
    status := MembershipStatus.active
    start_date := today
    end_date := endd
    remaining_boost_credits := 0
    remaining_ads := 0
    auto_renew := false }

/-- PaymentCallback from src/app/models.py lines 310-316: order_id and
transaction_status are declared without a default and are therefore
required; the other four fields default to None. -/
structure PaymentCallback where
  order_id : String
  transaction_status : String
  transaction_id : Option String
  payment_type : Option String
  gross_amount : Option String
  signature_key : Option String
deriving DecidableEq

/-- Raw inbound callback data before validation: every field may be absent.
Validation of this raw form against the PaymentCallback schema decides
which fields the interface actually requires. -/
structure RawCallback where
  order_id : Option String
  transaction_status : Option String
  transaction_id : Option String
  payment_type : Option String
  gross_amount : Option String
  signature_key : Option String
deriving DecidableEq

/-- Validation of a raw callback against the PaymentCallback schema of
src/app/models.py lines 310-316: a field with no default (order_id,
transaction_status) must be present, every field with default None may be
absent and passes through unchanged. -/
def parsePaymentCallback (r : RawCallback) : Option PaymentCallback :=
  match r.order_id, r.transaction_status with
  | some o, some t =>
      some { order_id := o
             transaction_status := t
             transaction_id := r.transaction_id
             payment_type := r.payment_type
             gross_amount := r.gross_amount
             signature_key := r.signature_key }
  | _, _ => none

/-- PaymentCreate from src/app/models.py lines 303-307. -/
structure PaymentCreate where
  payment_type : PaymentType
  membership_package_id : Option Nat
  boosted_ad_id : Option Nat
  amount : Int
deriving DecidableEq

/-- Raw payment-creation request data before validation. -/
structure RawPaymentCreate where
  payment_type : Option PaymentType
  membership_package_id : Option Nat
  boosted_ad_id : Option Nat
  amount : Option Int
deriving DecidableEq

/-- Validation of a raw creation request against the PaymentCreate schema
of src/app/models.py lines 303-307: payment_type and amount are required,
the two target ids are optional and no relation between them and
payment_type is checked anywhere in the schema. -/
def parsePaymentCreate (r : RawPaymentCreate) : Option PaymentCreate :=
  match r.payment_type, r.amount with
  | some pt, some a =>
      some { payment_type := pt
             membership_package_id := r.membership_package_id
             boosted_ad_id := r.boosted_ad_id
             amount := a }
  | _, _ => none

/-- AdBoost request schema from src/app/models.py lines 298-300. -/
structure AdBoost where
  ad_id : Nat
  duration_days : Int
deriving DecidableEq

/-- Validation of the AdBoost duration bound declared on
src/app/models.py line 300: Field with ge equal 1 and le equal 30. -/
def adBoostValid (b : AdBoost) : Bool :=
  decide (1 ≤ b.duration_days) && decide (b.duration_days ≤ 30)

/-- Error taxonomy. QuotaExhausted is Modelled from the spec, section 7. -/
inductive QuotaError where
  | QuotaExhausted
deriving DecidableEq

/-- Modelled from the spec, section 4.2: ConsumeAdQuota fails with
QuotaExhausted if remaining_ads equals 0, otherwise decrements. -/
def consumeAdQuota (m : UserMembership) : Except QuotaError UserMembership :=
  if m.remaining_ads = 0 then Except.error QuotaError.QuotaExhausted
  else Except.ok { m with remaining_ads := m.remaining_ads - 1 }

/-- Modelled from the spec, section 4.2: ConsumeBoostCredit follows the
same pattern over remaining_boost_credits. -/
def consumeBoostCredit (m : UserMembership) : Except QuotaError UserMembership :=
  if m.remaining_boost_credits = 0 then Except.error QuotaError.QuotaExhausted
  else Except.ok { m with remaining_boost_credits := m.remaining_boost_credits - 1 }

/-- Modelled from the spec, section 4.2: on GrantMembership an existing
active membership of the user is forced to inactive, not deleted. -/
def demoteActive (u : Nat) (m : UserMembership) : UserMembership :=
  if m.user_id = u ∧ m.status = MembershipStatus.active then
    { m with status := MembershipStatus.inactive }
  else m

/-- Modelled from the spec, section 4.2: GrantMembership supersedes any
existing active membership of the user (forced inactive) and creates a new
active membership with start_date today, end_date today plus the package
duration, and counters taken from the package. -/
def grantMembership (today : Int) (fid : Nat) (u : Nat)
    (pkg : MembershipPackage) (ms : List UserMembership) : List UserMembership :=
  { id := fid
    user_id := u
    package_id := pkg.id
    status := MembershipStatus.active
    start_date := today
    end_date := today + pkg.duration_days
    remaining_boost_credits := pkg.boost_credits
    remaining_ads := pkg.max_ads
    auto_renew := false } :: ms.map (demoteActive u)

/-- Modelled from the spec, section 4.2: ExtendBoost sets is_boosted true
and sets boost_expires_at to the later of now and the current expiry, plus
the requested number of days. -/
def extendBoost (now : Int) (d : Int) (ad : Ad) : Ad :=
  { ad with
    is_boosted := true
    boost_expires_at :=
      some ((match ad.boost_expires_at with
             | some e => max now e
             | none => now) + d) }

/-- Modelled from the spec, section 4.1: the Payment state machine allows
exactly pending to completed, failed or cancelled, and completed to
refunded; every other transition is rejected. -/
def allowedTransition : PaymentStatus → PaymentStatus → Bool
  | PaymentStatus.pending, PaymentStatus.completed => true
  | PaymentStatus.pending, PaymentStatus.failed => true
  | PaymentStatus.pending, PaymentStatus.cancelled => true
  | PaymentStatus.completed, PaymentStatus.refunded => true
  | _, _ => false

/-- Modelled from the spec, section 4.3 step 3: fixed lookup table from the
gateway transaction_status vocabulary to the internal Payment status;
unrecognized statuses map to none. -/
def mapGatewayStatus : String → Option PaymentStatus
  | "settlement" => some PaymentStatus.completed
  | "capture" => some PaymentStatus.completed
  | "deny" => some PaymentStatus.failed
  | "expire" => some PaymentStatus.failed
  | "cancel" => some PaymentStatus.cancelled
  | "refund" => some PaymentStatus.refunded
  | _ => none

/-- Reconciliation error taxonomy, Modelled from the spec, section 7.
PartialGrantFailure stands for a side effect whose target record is
missing; the atomic transaction rolls the whole reconcile back. -/
inductive RecErr where
  | InvalidSignature
  | UnknownOrder
  | UnmappedStatus
  | ConflictingStatus
  | PartialGrantFailure
deriving DecidableEq

/-- World state visible to the engine: the Payment, UserMembership and Ad
rows of the store, the read-only package catalog, and an audit log. -/
structure World where
  payments : List Payment
  memberships : List UserMembership
  ads : List Ad
  packages : List MembershipPackage
  audit : List String
deriving DecidableEq

/-- Tests whether a payment row carries the given gateway order id. -/
def oidMatches (oid : String) (q : Payment) : Bool :=
  decide (q.midtrans_order_id = oid)

/-- Looks up the Payment by order id, the idempotency key
(spec section 4.3 step 2). -/
def findPayment (s : World) (oid : String) : Option Payment :=
  s.payments.find? (oidMatches oid)

/-- Looks up a membership package by id in the catalog. -/
def findPackage (s : World) (pid : Nat) : Option MembershipPackage :=
  s.packages.find? (fun g => decide (g.id = pid))

/-- Looks up an ad by id. -/
def findAd (s : World) (aid : Nat) : Option Ad :=
  s.ads.find? (fun a => decide (a.id = aid))

/-- Replaces the first payment row matching the order id by its image
under f, leaving every other row unchanged. -/
def updateFirst (oid : String) (f : Payment → Payment) :
    List Payment → List Payment
  | [] => []
  | q :: qs =>
      if oidMatches oid q then f q :: qs else q :: updateFirst oid f qs

/-- Replaces the first ad matching the id by its image under f. -/
def updateFirstAd (aid : Nat) (f : Ad → Ad) : List Ad → List Ad
  | [] => []
  | a :: as_ =>
      if decide (a.id = aid) then f a :: as_ else a :: updateFirstAd aid f as_

/-- Fresh identifier for a membership created by a grant. -/
def nextMembershipId (s : World) : Nat :=
  s.memberships.length + 1

/-- Modelled from the spec, section 4.1: the applied Payment transition
writes the target status, sets paid_at when the target is completed, and
records the gateway transaction id when the event carries one. The order
id is never touched. -/
def completePayment (now : Int) (c : PaymentCallback)
    (target : PaymentStatus) (p : Payment) : Payment :=
  { p with
    status := target
    paid_at := if target = PaymentStatus.completed then some now else p.paid_at
    midtrans_transaction_id :=
      match c.transaction_id with
      | some t => some t
      | none => p.midtrans_transaction_id }

/-- Modelled from the spec, sections 4.1 and 4.2: the side effects of a
completion. A membership payment grants a membership from its package; an
ad-boost payment extends the boost of its target ad. A missing target
yields none, which aborts the enclosing transaction. -/
def applyCompletion (now : Int) (p : Payment) (s : World) : Option World :=
  match p.payment_type with
  | PaymentType.membership =>
      match p.membership_package_id with
      | none => none
      | some pid =>
          match findPackage s pid with
          | none => none
          | some pkg =>
              some { s with
                     memberships :=
                       grantMembership now (nextMembershipId s) p.user_id pkg
                         s.memberships }
  | PaymentType.ad_boost =>
      match p.boosted_ad_id with
      | none => none
      | some aid =>
          match findAd s aid with
          | none => none
          | some _ =>
              some { s with
                     ads := updateFirstAd aid
                       (extendBoost now p.boost_duration_days) s.ads }

/-- Modelled from the spec, sections 4.1 to 4.3: the non-short-circuit arm
of reconcile. The payment row is moved to the target status; a completion
additionally applies its grant side effects inside the same transaction
(a missing grant target rolls everything back); a refund appends an audit
entry per section 7. -/
def applyTransition (now : Int) (c : PaymentCallback) (s : World)
    (p : Payment) (target : PaymentStatus) : World × Except RecErr Unit :=
  let s1 : World :=
    { s with payments := updateFirst c.order_id (completePayment now c target) s.payments }
  if target = PaymentStatus.completed then
    match applyCompletion now p s1 with
    | none => (s, Except.error RecErr.PartialGrantFailure)
    | some s2 => (s2, Except.ok ())
  else if target = PaymentStatus.refunded then
    ({ s1 with audit := (String.append "refund:" c.order_id) :: s.audit },
     Except.ok ())
  else (s1, Except.ok ())

/-- Modelled from the spec, section 4.3: the reconciliation protocol.
Verify the signature (the verifier collaborator is passed as v), look up
the Payment by order id, map the gateway status, short-circuit when the
payment already carries the target status, otherwise apply the transition
when the state machine allows it and fail with ConflictingStatus when it
does not. -/
def reconcile (v : PaymentCallback → Bool) (now : Int) (c : PaymentCallback)
    (s : World) : World × Except RecErr Unit :=
  if v c then
    match findPayment s c.order_id with
    | none => (s, Except.error RecErr.UnknownOrder)
    | some p =>
        match mapGatewayStatus c.transaction_status with
        | none => (s, Except.error RecErr.UnmappedStatus)
        | some target =>
            if p.status = target then (s, Except.ok ())
            else if allowedTransition p.status target then
              applyTransition now c s p target
            else (s, Except.error RecErr.ConflictingStatus)
  else (s, Except.error RecErr.InvalidSignature)

/-- Insertion of a new payment row under the UNIQUE constraint declared on
midtrans_order_id at src/app/models.py line 186: the store rejects a row
whose order id already exists. -/
def insertPayment (p : Payment) (l : List Payment) : Option (List Payment) :=
  if l.any (oidMatches p.midtrans_order_id) then none else some (p :: l)

/-- Order ids of a payment list, in row order. -/
def orderIds (l : List Payment) : List String :=
  l.map (fun q => q.midtrans_order_id)

/-- Tests whether a membership row is an active membership of user u. -/
def isActiveFor (u : Nat) (m : UserMembership) : Bool :=
  decide (m.user_id = u ∧ m.status = MembershipStatus.active)

/-- Number of active memberships of user u. -/
def countActive (u : Nat) (ms : List UserMembership) : Nat :=
  ms.countP (isActiveFor u)

/-- Invariant relating paid_at to the payment status as reachable states
actually satisfy it: paid_at is set exactly on completed and refunded
payments (a refund keeps the original paid_at for audit). -/
def paidInv (p : Payment) : Prop :=
  p.paid_at.isSome = true ↔
    (p.status = PaymentStatus.completed ∨ p.status = PaymentStatus.refunded)

/-- Example package used in concrete evaluations: thirty days, ten ads,
two boost credits, matching Scenario A of the spec. -/
def exPackage : MembershipPackage :=
  { id := 1, price := 5000, duration_days := 30, max_ads := 10, boost_credits := 2 }

/-- Example pending membership payment with order id ord1. -/
def exPaymentPending : Payment :=
  mkPayment 1 PaymentType.membership 5000 "ord1" (some 1) none 0

/-- Example world holding the pending payment and the package catalog. -/
def exWorld : World :=
  { payments := [exPaymentPending]
    memberships := []
    ads := []
    packages := [exPackage]
    audit := [] }

/-- Settlement callback for order ord1. -/
def cbSettle : PaymentCallback :=
  { order_id := "ord1", transaction_status := "settlement"
    transaction_id := none, payment_type := none
    gross_amount := none, signature_key := none }

/-- Refund callback for order ord1. -/
def cbRefund : PaymentCallback :=
  { order_id := "ord1", transaction_status := "refund"
    transaction_id := none, payment_type := none
    gross_amount := none, signature_key := none }

/-- Verifier that accepts every callback, standing in for a correctly
configured signature verifier in concrete evaluations. -/
def vAll : PaymentCallback → Bool := fun _ => true

/-- World after the settlement callback is reconciled at time 3. -/
def exWorld1 : World := (reconcile vAll 3 cbSettle exWorld).1

/-- World after the refund callback is additionally reconciled at time 5. -/
def exWorld2 : World := (reconcile vAll 5 cbRefund exWorld1).1

/-- Example active membership of user 1. -/
def exActiveM : UserMembership := mkUserMembership 7 1 1 0 30

/-- Raw callback carrying order id and transaction status but no
signature_key. -/
def rawNoSig : RawCallback :=
  { order_id := some "ord1", transaction_status := some "settlement"
    transaction_id := none, payment_type := none
    gross_amount := none, signature_key := none }

/-- Raw payment-creation request of type membership carrying both a
membership package target and an ad target simultaneously. -/
def rawBothTargets : RawPaymentCreate :=
  { payment_type := some PaymentType.membership
    membership_package_id := some 1
    boosted_ad_id := some 2
    amount := some 100 }

/-- Example ad whose boost expires at time 7. -/
def exAdBoosted : Ad :=
  { id := 4, user_id := 1, category_id := 1, status := AdStatus.active
    is_boosted := true, boost_expires_at := some 7, expires_at := none }

/-- The applied transition never touches the order id. -/
theorem completePayment_oid (now : Int) (c : PaymentCallback)
    (t : PaymentStatus) (p : Payment) :
    (completePayment now c t p).midtrans_order_id = p.midtrans_order_id := rfl

/-- The applied transition writes exactly the target status. -/
theorem completePayment_status (now : Int) (c : PaymentCallback)
    (t : PaymentStatus) (p : Payment) :
    (completePayment now c t p).status = t := rfl

/-- Finding by order id commutes with updating the first matching row,
provided the update preserves the order id. -/
theorem find?_updateFirst (oid : String) (f : Payment → Payment)
    (hf : ∀ q, (f q).midtrans_order_id = q.midtrans_order_id)
    (l : List Payment) :
    (updateFirst oid f l).find? (oidMatches oid)
      = (l.find? (oidMatches oid)).map f := by
  induction l with
  | nil => rfl
  | cons q qs ih =>
      cases h : oidMatches oid q with
      | true =>
          have hfq : oidMatches oid (f q) = true := by
            simpa [oidMatches, hf q] using h
          simp [updateFirst, h, List.find?_cons_of_pos, hfq]
      | false =>
          simp [updateFirst, h, List.find?_cons_of_neg, ih]

/-- Every row of the updated list is an old row or the image of the row
that find? locates. -/
theorem mem_updateFirst (oid : String) (f : Payment → Payment) :
    ∀ (l : List Payment) (p : Payment),
      l.find? (oidMatches oid) = some p →
      ∀ q ∈ updateFirst oid f l, q ∈ l ∨ q = f p
  | [], p, hp => by simp [List.find?] at hp
  | a :: as_, p, hp => by
      cases h : oidMatches oid a with
      | true =>
          rw [List.find?_cons_of_pos _ h] at hp
          obtain rfl : a = p := Option.some.inj hp
          intro q hq
          rw [updateFirst, if_pos h] at hq
          rcases List.mem_cons.mp hq with hq | hq
          · exact Or.inr hq
          · exact Or.inl (List.mem_cons_of_mem _ hq)
      | false =>
          rw [List.find?_cons_of_neg _ (by simp [h])] at hp
          intro q hq
          rw [updateFirst, if_neg (by simp [h])] at hq
          rcases List.mem_cons.mp hq with hq | hq
          · exact Or.inl (hq ▸ List.mem_cons_self a as_)
          · rcases mem_updateFirst oid f as_ p hp q hq with h1 | h1
            · exact Or.inl (List.mem_cons_of_mem _ h1)
            · exact Or.inr h1

/-- Updating the first matching row preserves the order-id column when the
update does. -/
theorem orderIds_updateFirst (oid : String) (f : Payment → Payment)
    (hf : ∀ q, (f q).midtrans_order_id = q.midtrans_order_id)
    (l : List Payment) :
    orderIds (updateFirst oid f l) = orderIds l := by
  induction l with
  | nil => rfl
  | cons q qs ih =>
      cases h : oidMatches oid q with
      | true => simp [updateFirst, h, orderIds, hf]
      | false => simpa [updateFirst, h, orderIds] using ih

/-- Demoting the active memberships of user u kills the active flag for u
and leaves every other user unchanged. -/
theorem isActiveFor_demote (u w : Nat) (m : UserMembership) :
    isActiveFor w (demoteActive u m)
      = if w = u then false else isActiveFor w m := by
  by_cases hw : w = u
  · subst hw
    by_cases hc : m.user_id = w ∧ m.status = MembershipStatus.active
    · simp [demoteActive, hc, isActiveFor]
    · have hd : demoteActive w m = m := if_neg hc
      rw [hd, if_pos rfl]
      exact decide_eq_false hc
  · by_cases hc : m.user_id = u ∧ m.status = MembershipStatus.active
    · have hne : ¬ m.user_id = w := by
        rw [hc.1]
        exact fun h => hw h.symm
      simp [demoteActive, hc, isActiveFor, hne, hw]
      exact fun h => hw h.symm
    · simp [demoteActive, hc, hw]

/-- Counting active memberships after a demotion pass: zero for the
demoted user, unchanged for every other user. -/
theorem countActive_map_demote (u w : Nat) (ms : List UserMembership) :
    countActive w (ms.map (demoteActive u))
      = if w = u then 0 else countActive w ms := by
  induction ms with
  | nil => simp [countActive]
  | cons m ms ih =>
      simp only [countActive, List.map_cons, List.countP_cons] at ih ⊢
      rw [isActiveFor_demote]
      by_cases hw : w = u
      · simpa [hw] using ih
      · simp only [hw, if_false] at ih ⊢
        omega

/-- GrantMembership keeps the count of active memberships of every user at
most one. -/
theorem countActive_grant (today : Int) (fid u w : Nat)
    (pkg : MembershipPackage) (ms : List UserMembership)
    (h : countActive w ms ≤ 1) :
    countActive w (grantMembership today fid u pkg ms) ≤ 1 := by
  simp only [grantMembership, countActive, List.countP_cons]
  have hd := countActive_map_demote u w ms
  simp only [countActive] at hd
  rw [hd]
  by_cases hw : w = u
  · simp [hw, isActiveFor]
  · have : isActiveFor w
        { id := fid, user_id := u, package_id := pkg.id
          status := MembershipStatus.active, start_date := today
          end_date := today + pkg.duration_days
          remaining_boost_credits := pkg.boost_credits
          remaining_ads := pkg.max_ads, auto_renew := false } = false := by
      simp [isActiveFor]
      exact fun h1 => absurd h1.symm hw
    simp [hw, this]
    exact h

/-- Counters of every membership present after a grant stay nonnegative
when the package grants nonnegative quotas and the prior rows were
nonnegative; a demotion only changes the status field. -/
theorem grant_counters_nonneg (today : Int) (fid u : Nat)
    (pkg : MembershipPackage) (ms : List UserMembership)
    (hpa : 0 ≤ pkg.max_ads) (hpb : 0 ≤ pkg.boost_credits)
    (hms : ∀ m ∈ ms, 0 ≤ m.remaining_ads ∧ 0 ≤ m.remaining_boost_credits) :
    ∀ m ∈ grantMembership today fid u pkg ms,
      0 ≤ m.remaining_ads ∧ 0 ≤ m.remaining_boost_credits := by
  intro m hm
  rcases List.mem_cons.mp hm with hm | hm
  · subst hm
    exact ⟨hpa, hpb⟩
  · rcases List.mem_map.mp hm with ⟨m0, hm0, rfl⟩
    have := hms m0 hm0
    by_cases hc : m0.user_id = u ∧ m0.status = MembershipStatus.active
    · simpa [demoteActive, hc] using this
    · simpa [demoteActive, hc] using this

/-- Completion side effects never touch the payment rows. -/
theorem applyCompletion_payments (now : Int) (p : Payment) (w w' : World)
    (h : applyCompletion now p w = some w') : w'.payments = w.payments := by
  cases hpt : p.payment_type with
  | membership =>
      cases hpid : p.membership_package_id with
      | none => simp [applyCompletion, hpt, hpid] at h
      | some pid =>
          cases hfp : findPackage w pid with
          | none => simp [applyCompletion, hpt, hpid, hfp] at h
          | some pkg =>
              simp only [applyCompletion, hpt, hpid, hfp, Option.some.injEq] at h
              rw [← h]
  | ad_boost =>
      cases hba : p.boosted_ad_id with
      | none => simp [applyCompletion, hpt, hba] at h
      | some aid =>
          cases hfa : findAd w aid with
          | none => simp [applyCompletion, hpt, hba, hfa] at h
          | some a =>
              simp only [applyCompletion, hpt, hba, hfa, Option.some.injEq] at h
              rw [← h]

/-- Completion side effects never touch the package catalog. -/
theorem applyCompletion_packages (now : Int) (p : Payment) (w w' : World)
    (h : applyCompletion now p w = some w') : w'.packages = w.packages := by
  cases hpt : p.payment_type with
  | membership =>
      cases hpid : p.membership_package_id with
      | none => simp [applyCompletion, hpt, hpid] at h
      | some pid =>
          cases hfp : findPackage w pid with
          | none => simp [applyCompletion, hpt, hpid, hfp] at h
          | some pkg =>
              simp only [applyCompletion, hpt, hpid, hfp, Option.some.injEq] at h
              rw [← h]
  | ad_boost =>
      cases hba : p.boosted_ad_id with
      | none => simp [applyCompletion, hpt, hba] at h
      | some aid =>
          cases hfa : findAd w aid with
          | none => simp [applyCompletion, hpt, hba, hfa] at h
          | some a =>
              simp only [applyCompletion, hpt, hba, hfa, Option.some.injEq] at h
              rw [← h]

/-- The memberships produced by a completion are either untouched or the
result of one grant over the prior rows. -/
theorem applyCompletion_memberships (now : Int) (p : Payment) (w w' : World)
    (h : applyCompletion now p w = some w') :
    w'.memberships = w.memberships ∨
      ∃ fid pkg, w'.memberships
        = grantMembership now fid p.user_id pkg w.memberships := by
  cases hpt : p.payment_type with
  | membership =>
      cases hpid : p.membership_package_id with
      | none => simp [applyCompletion, hpt, hpid] at h
      | some pid =>
          cases hfp : findPackage w pid with
          | none => simp [applyCompletion, hpt, hpid, hfp] at h
          | some pkg =>
              simp only [applyCompletion, hpt, hpid, hfp, Option.some.injEq] at h
              right
              exact ⟨nextMembershipId w, pkg, by rw [← h]⟩
  | ad_boost =>
      cases hba : p.boosted_ad_id with
      | none => simp [applyCompletion, hpt, hba] at h
      | some aid =>
          cases hfa : findAd w aid with
          | none => simp [applyCompletion, hpt, hba, hfa] at h
          | some a =>
              simp only [applyCompletion, hpt, hba, hfa, Option.some.injEq] at h
              left
              rw [← h]

/-- Failure of the completion side effects depends only on the payment,
the package catalog and the ad rows, never on the clock or the payment
rows, so a rolled-back grant fails again on replay. -/
theorem applyCompletion_none_trans (n n' : Int) (p : Payment) (w w' : World)
    (hpk : w'.packages = w.packages) (had : w'.ads = w.ads)
    (h : applyCompletion n p w = none) : applyCompletion n' p w' = none := by
  have hfp : ∀ pid, findPackage w' pid = findPackage w pid := by
    intro pid
    unfold findPackage
    rw [hpk]
  have hfa : ∀ aid, findAd w' aid = findAd w aid := by
    intro aid
    unfold findAd
    rw [had]
  cases hpt : p.payment_type with
  | membership =>
      cases hpid : p.membership_package_id with
      | none => simp [applyCompletion, hpt, hpid]
      | some pid =>
          cases hg : findPackage w pid with
          | none => simp [applyCompletion, hpt, hpid, hfp, hg]
          | some pkg => simp [applyCompletion, hpt, hpid, hg] at h
  | ad_boost =>
      cases hba : p.boosted_ad_id with
      | none => simp [applyCompletion, hpt, hba]
      | some aid =>
          cases hg : findAd w aid with
          | none => simp [applyCompletion, hpt, hba, hfa, hg]
          | some a => simp [applyCompletion, hpt, hba, hg] at h

/-- Characterization of the transition-application arm of reconcile:
either it commits, with the payment rows updated in place by the applied
transition and the memberships untouched or granted once, or the grant
target was missing, everything rolled back, and the completion is doomed
to fail again on the same catalog and ad rows. -/
theorem applyTransition_spec (now : Int) (c : PaymentCallback) (s : World)
    (p : Payment) (target : PaymentStatus) :
    (∃ w : World, applyTransition now c s p target = (w, Except.ok ()) ∧
        w.payments
          = updateFirst c.order_id (completePayment now c target) s.payments ∧
        (w.memberships = s.memberships ∨
          ∃ fid pkg, w.memberships
            = grantMembership now fid p.user_id pkg s.memberships)) ∨
    (applyTransition now c s p target
        = (s, Except.error RecErr.PartialGrantFailure) ∧
      target = PaymentStatus.completed ∧
      applyCompletion now p
        { s with payments :=
            updateFirst c.order_id (completePayment now c target) s.payments }
        = none) := by
  cases target with
  | completed =>
      cases hac : applyCompletion now p
          { s with payments :=
              updateFirst c.order_id (completePayment now c PaymentStatus.completed) s.payments } with
      | none =>
          right
          refine ⟨?_, rfl, rfl⟩
          simp [applyTransition, hac]
      | some s2 =>
          left
          refine ⟨s2, by simp [applyTransition, hac], ?_, ?_⟩
          · have h1 := applyCompletion_payments _ _ _ _ hac
            rw [h1]
          · have h2 := applyCompletion_memberships _ _ _ _ hac
            exact h2
  | pending => exact Or.inl ⟨_, rfl, rfl, Or.inl rfl⟩
  | failed => exact Or.inl ⟨_, rfl, rfl, Or.inl rfl⟩
  | cancelled => exact Or.inl ⟨_, rfl, rfl, Or.inl rfl⟩
  | refunded => exact Or.inl ⟨_, rfl, rfl, Or.inl rfl⟩

/-- Shape of a reconcile run: either the state is untouched, or the run
committed one allowed payment transition, updating the matched payment row
in place and granting at most one membership. -/
theorem reconcile_shape (v : PaymentCallback → Bool) (n : Int)
    (c : PaymentCallback) (s : World) :
    (reconcile v n c s).1 = s ∨
    ∃ p target w,
      findPayment s c.order_id = some p ∧
      mapGatewayStatus c.transaction_status = some target ∧
      allowedTransition p.status target = true ∧
      reconcile v n c s = (w, Except.ok ()) ∧
      w.payments
        = updateFirst c.order_id (completePayment n c target) s.payments ∧
      (w.memberships = s.memberships ∨
        ∃ fid pkg, w.memberships
          = grantMembership n fid p.user_id pkg s.memberships) := by
  by_cases hv : v c
  · cases hf : findPayment s c.order_id with
    | none => left; simp [reconcile, hv, hf]
    | some p =>
        cases hm : mapGatewayStatus c.transaction_status with
        | none => left; simp [reconcile, hv, hf, hm]
        | some target =>
            by_cases hst : p.status = target
            · left; simp [reconcile, hv, hf, hm, hst]
            · by_cases hall : allowedTransition p.status target
              · have hrec : reconcile v n c s = applyTransition n c s p target := by
                  simp [reconcile, hv, hf, hm, hst, hall]
                rcases applyTransition_spec n c s p target with
                  ⟨w, hw, hwp, hwm⟩ | ⟨hw, _, _⟩
                · right
                  exact ⟨p, target, w, rfl, rfl, hall, by rw [hrec, hw], hwp, hwm⟩
                · left
                  rw [hrec, hw]
              · left; simp [reconcile, hv, hf, hm, hst, hall]
  · left; simp [reconcile, hv]

/-- Replaying a callback over the state a first replay produced leaves
that state unchanged, whatever the clock readings of the two runs. -/
theorem reconcile_replay_fst (v : PaymentCallback → Bool) (n1 n2 : Int)
    (c : PaymentCallback) (s : World) :
    (reconcile v n2 c (reconcile v n1 c s).1).1 = (reconcile v n1 c s).1 := by
  by_cases hv : v c
  · cases hf : findPayment s c.order_id with
    | none => simp [reconcile, hv, hf]
    | some p =>
        cases hm : mapGatewayStatus c.transaction_status with
        | none => simp [reconcile, hv, hf, hm]
        | some target =>
            by_cases hst : p.status = target
            · simp [reconcile, hv, hf, hm, hst]
            · by_cases hall : allowedTransition p.status target
              · have hrec : reconcile v n1 c s = applyTransition n1 c s p target := by
                  simp [reconcile, hv, hf, hm, hst, hall]
                rw [hrec]
                rcases applyTransition_spec n1 c s p target with
                  ⟨w, hw, hwp, _⟩ | ⟨hw, htc, hnone⟩
                · rw [hw]
                  have hfind2 : findPayment w c.order_id
                      = some (completePayment n1 c target p) := by
                    unfold findPayment
                    rw [hwp,
                      find?_updateFirst c.order_id (completePayment n1 c target)
                        (fun q => rfl)]
                    unfold findPayment at hf
                    rw [hf]
                    rfl
                  simp [reconcile, hv, hfind2, hm, completePayment_status]
                · rw [hw]
                  subst htc
                  have hnone2 : applyCompletion n2 p
                      { s with payments :=
                          updateFirst c.order_id (completePayment n2 c PaymentStatus.completed) s.payments }
                      = none :=
                    applyCompletion_none_trans n1 n2 p
                      { s with payments :=
                          updateFirst c.order_id (completePayment n1 c PaymentStatus.completed) s.payments }
                      { s with payments :=
                          updateFirst c.order_id (completePayment n2 c PaymentStatus.completed) s.payments }
                      rfl rfl hnone
                  simp [reconcile, hv, hf, hm, hst, hall, applyTransition, hnone2]
              · simp [reconcile, hv, hf, hm, hst, hall]
  · simp [reconcile, hv]

/-- The applied transition preserves the paid-at invariant along every
allowed edge: completion stamps paid_at, failure and cancellation leave
the unset pending paid_at unset, refund keeps the stamp. -/
theorem paidInv_completePayment (now : Int) (c : PaymentCallback)
    (p : Payment) (target : PaymentStatus) (hp : paidInv p)
    (ht : allowedTransition p.status target = true) :
    paidInv (completePayment now c target p) := by
  rcases p with ⟨pi, uid, mpid, baid, pt, am, cur, st, oid, tid, pa, ea, bdd⟩
  cases st <;> cases target <;>
    simp_all [paidInv, completePayment, allowedTransition]

/-- Reconcile preserves the paid-at invariant across the whole payment
table. -/
theorem paidInv_reconcile (v : PaymentCallback → Bool) (n : Int)
    (c : PaymentCallback) (s : World)
    (h : ∀ p ∈ s.payments, paidInv p) :
    ∀ q ∈ (reconcile v n c s).1.payments, paidInv q := by
  rcases reconcile_shape v n c s with hs | ⟨p, target, w, hf, hm, hall, hrec, hwp, _⟩
  · rw [hs]; exact h
  · have h1 : (reconcile v n c s).1 = w := by rw [hrec]
    rw [h1]
    intro q hq
    rw [hwp] at hq
    unfold findPayment at hf
    rcases mem_updateFirst c.order_id (completePayment n c target)
        s.payments p hf q hq with hq1 | hq1
    · exact h q hq1
    · rw [hq1]
      exact paidInv_completePayment n c p target
        (h p (List.mem_of_find?_eq_some hf)) hall

/-- Reconcile preserves the at-most-one-active-membership bound for every
user. -/
theorem countActive_reconcile (v : PaymentCallback → Bool) (n : Int)
    (c : PaymentCallback) (s : World) (u : Nat)
    (h : countActive u s.memberships ≤ 1) :
    countActive u (reconcile v n c s).1.memberships ≤ 1 := by
  rcases reconcile_shape v n c s with hs | ⟨p, target, w, _, _, _, hrec, _, hwm⟩
  · rw [hs]; exact h
  · have h1 : (reconcile v n c s).1 = w := by rw [hrec]
    rw [h1]
    rcases hwm with hwm | ⟨fid, pkg, hwm⟩
    · rw [hwm]; exact h
    · rw [hwm]
      exact countActive_grant n fid p.user_id u pkg s.memberships h

/-- Reconcile leaves the order-id column of the payment table exactly as
it was: order ids are immutable and no row appears or disappears. -/
theorem orderIds_reconcile (v : PaymentCallback → Bool) (n : Int)
    (c : PaymentCallback) (s : World) :
    orderIds (reconcile v n c s).1.payments = orderIds s.payments := by
  rcases reconcile_shape v n c s with hs | ⟨p, target, w, _, _, _, hrec, hwp, _⟩
  · rw [hs]
  · have h1 : (reconcile v n c s).1 = w := by rw [hrec]
    rw [h1, hwp]
    exact orderIds_updateFirst c.order_id (completePayment n c target)
      (fun q => rfl) s.payments

/-- Every payment row present after a reconcile is an untouched old row or
reached its status from an old row along an allowed transition edge. -/
theorem reconcile_payment_origin (v : PaymentCallback → Bool) (n : Int)
    (c : PaymentCallback) (s : World) :
    ∀ q ∈ (reconcile v n c s).1.payments,
      q ∈ s.payments ∨
        ∃ p, p ∈ s.payments ∧ allowedTransition p.status q.status = true := by
  rcases reconcile_shape v n c s with hs | ⟨p, target, w, hf, _, hall, hrec, hwp, _⟩
  · rw [hs]; intro q hq; exact Or.inl hq
  · have h1 : (reconcile v n c s).1 = w := by rw [hrec]
    rw [h1]
    intro q hq
    rw [hwp] at hq
    unfold findPayment at hf
    rcases mem_updateFirst c.order_id (completePayment n c target)
        s.payments p hf q hq with hq1 | hq1
    · exact Or.inl hq1
    · right
      refine ⟨p, List.mem_of_find?_eq_some hf, ?_⟩
      rw [hq1, completePayment_status]
      exact hall

/-- C1: replaying the identical gateway callback twice yields the same
final Payment, UserMembership and Ad state as applying it once, with side
effects applied exactly once; and when the Payment already carries the
target terminal status, reconcile returns success and applies no side
effects at all. -/
theorem reconcile_idempotent :
    (∀ (v : PaymentCallback → Bool) (n1 n2 : Int) (c : PaymentCallback)
        (s : World),
      (reconcile v n2 c (reconcile v n1 c s).1).1 = (reconcile v n1 c s).1) ∧
    (∀ (v : PaymentCallback → Bool) (n : Int) (c : PaymentCallback)
        (s : World) (p : Payment) (t : PaymentStatus),
      v c = true → findPayment s c.order_id = some p →
      mapGatewayStatus c.transaction_status = some t → p.status = t →
      reconcile v n c s = (s, Except.ok ())) := by
  constructor
  · exact reconcile_replay_fst
  · intro v n c s p t hv hf hm hst
    simp [reconcile, hv, hf, hm, hst]

/-- Witness for C1: a settlement replayed over the already-settled world
changes nothing, and reconciling a callback whose target status the
payment already carries returns success with the state untouched. -/
theorem reconcile_idempotent_witness :
    (reconcile vAll 5 cbSettle (reconcile vAll 3 cbSettle exWorld).1).1
      = (reconcile vAll 3 cbSettle exWorld).1 ∧
    reconcile vAll 9 cbSettle exWorld1 = (exWorld1, Except.ok ()) :=
  ⟨reconcile_idempotent.1 vAll 3 5 cbSettle exWorld,
   reconcile_idempotent.2 vAll 9 cbSettle exWorld1
     (completePayment 3 cbSettle PaymentStatus.completed exPaymentPending)
     PaymentStatus.completed (by decide) (by decide) (by decide) (by decide)⟩

/-- C2 counterexample: starting from a freshly created pending payment, a
settlement followed by a refund reaches a state whose payment has paid_at
set while its status is refunded, not completed, so the biconditional
status equals completed iff paid_at is set fails in a reachable state. -/
theorem paid_iff_completed_counterexample :
    (exWorld2.payments.map (fun p => p.status)) = [PaymentStatus.refunded] ∧
    (exWorld2.payments.map (fun p => p.paid_at)) = [some 3] ∧
    ¬ (∀ p ∈ exWorld2.payments,
        p.status = PaymentStatus.completed ↔ p.paid_at.isSome = true) := by
  decide

/-- C2 amended: a freshly constructed Payment satisfies the invariant that
paid_at is set exactly when the status is completed or refunded, and every
reconcile run preserves that invariant across the payment table; the
original biconditional with completed alone holds until a refund, which
keeps paid_at while moving the status to refunded. -/
theorem paid_at_iff_completed_or_refunded :
    (∀ (uid : Nat) (pt : PaymentType) (a : Int) (oid : String)
        (mpid baid : Option Nat) (bd : Int),
      paidInv (mkPayment uid pt a oid mpid baid bd)) ∧
    (∀ (v : PaymentCallback → Bool) (n : Int) (c : PaymentCallback)
        (s : World),
      (∀ p ∈ s.payments, paidInv p) →
      ∀ q ∈ (reconcile v n c s).1.payments, paidInv q) := by
  constructor
  · intro uid pt a oid mpid baid bd
    simp [paidInv, mkPayment]
  · exact paidInv_reconcile

/-- Witness for C2 amended: the settled payment of the example world
satisfies the invariant, obtained by running the preservation statement on
the initial world. -/
theorem paid_at_iff_completed_or_refunded_witness :
    paidInv (completePayment 3 cbSettle PaymentStatus.completed exPaymentPending) := by
  have hinv : ∀ p ∈ exWorld.payments, paidInv p := by
    intro p hp
    have hpe : p = exPaymentPending := by
      simpa [exWorld] using hp
    rw [hpe]
    simp [paidInv, exPaymentPending, mkPayment]
  have h := paid_at_iff_completed_or_refunded.2 vAll 3 cbSettle exWorld hinv
  exact h _ (by decide)

/-- C3: GrantMembership preserves the bound of at most one active
membership per user, and so does every reconcile run, which can only touch
memberships through one grant. -/
theorem at_most_one_active_membership :
    (∀ (today : Int) (fid u w : Nat) (pkg : MembershipPackage)
        (ms : List UserMembership),
      countActive w ms ≤ 1 →
      countActive w (grantMembership today fid u pkg ms) ≤ 1) ∧
    (∀ (v : PaymentCallback → Bool) (n : Int) (c : PaymentCallback)
        (s : World) (u : Nat),
      countActive u s.memberships ≤ 1 →
      countActive u (reconcile v n c s).1.memberships ≤ 1) :=
  ⟨countActive_grant, countActive_reconcile⟩

/-- Witness for C3: granting over a table holding one active membership of
user 1 leaves user 1 with at most one active membership. -/
theorem at_most_one_active_membership_witness :
    countActive 1 (grantMembership 3 5 1 exPackage [exActiveM]) ≤ 1 :=
  at_most_one_active_membership.1 3 5 1 1 exPackage [exActiveM] (by decide)

/-- C4: quota counters never go negative: consuming ad quota fails with
QuotaExhausted at zero instead of decrementing below zero, consuming a
boost credit behaves the same over remaining_boost_credits, a grant
installs nonnegative counters from a nonnegative package and leaves the
other rows nonnegative, and a freshly constructed membership starts with
nonnegative counters. -/
theorem quota_counters_nonneg :
    (∀ m : UserMembership,
      0 ≤ m.remaining_ads → 0 ≤ m.remaining_boost_credits →
      ((m.remaining_ads = 0 →
          consumeAdQuota m = Except.error QuotaError.QuotaExhausted) ∧
       (∀ m2, consumeAdQuota m = Except.ok m2 →
          0 ≤ m2.remaining_ads ∧ 0 ≤ m2.remaining_boost_credits) ∧
       (m.remaining_boost_credits = 0 →
          consumeBoostCredit m = Except.error QuotaError.QuotaExhausted) ∧
       (∀ m2, consumeBoostCredit m = Except.ok m2 →
          0 ≤ m2.remaining_ads ∧ 0 ≤ m2.remaining_boost_credits))) ∧
    (∀ (today : Int) (fid u : Nat) (pkg : MembershipPackage)
        (ms : List UserMembership),
      0 ≤ pkg.max_ads → 0 ≤ pkg.boost_credits →
      (∀ m ∈ ms, 0 ≤ m.remaining_ads ∧ 0 ≤ m.remaining_boost_credits) →
      ∀ m ∈ grantMembership today fid u pkg ms,
        0 ≤ m.remaining_ads ∧ 0 ≤ m.remaining_boost_credits) ∧
    (∀ (mid uid pid : Nat) (today endd : Int),
      0 ≤ (mkUserMembership mid uid pid today endd).remaining_ads ∧
      0 ≤ (mkUserMembership mid uid pid today endd).remaining_boost_credits) := by
  refine ⟨?_, grant_counters_nonneg, ?_⟩
  · intro m h1 h2
    refine ⟨?_, ?_, ?_, ?_⟩
    · intro h0
      simp [consumeAdQuota, h0]
    · intro m2 hm2
      unfold consumeAdQuota at hm2
      by_cases h0 : m.remaining_ads = 0
      · simp [h0] at hm2
      · simp only [h0, if_false, if_neg h0, Except.ok.injEq] at hm2
        rw [← hm2]
        refine ⟨?_, h2⟩
        simp only []
        omega
    · intro h0
      simp [consumeBoostCredit, h0]
    · intro m2 hm2
      unfold consumeBoostCredit at hm2
      by_cases h0 : m.remaining_boost_credits = 0
      · simp [h0] at hm2
      · simp only [h0, if_false, if_neg h0, Except.ok.injEq] at hm2
        rw [← hm2]
        refine ⟨h1, ?_⟩
        simp only []
        omega
  · intro mid uid pid today endd
    exact ⟨le_refl 0, le_refl 0⟩

/-- Witness for C4: a freshly constructed membership has zero remaining
ads, so consuming ad quota on it fails with QuotaExhausted. -/
theorem quota_counters_nonneg_witness :
    consumeAdQuota (mkUserMembership 1 1 1 0 30)
      = Except.error QuotaError.QuotaExhausted := by
  have h := (quota_counters_nonneg.1 (mkUserMembership 1 1 1 0 30)
    (by decide) (by decide)).1
  exact h (by decide)

/-- C5: the store rejects a second payment row with an existing order id,
so the order-id column stays duplicate free across insertion, and a
reconcile run leaves the order-id column exactly as it was, so order ids
are immutable after creation. -/
theorem order_id_unique_and_immutable :
    (∀ (p : Payment) (l l2 : List Payment),
      (orderIds l).Nodup → insertPayment p l = some l2 →
      (orderIds l2).Nodup) ∧
    (∀ (p : Payment) (l : List Payment),
      p.midtrans_order_id ∈ orderIds l → insertPayment p l = none) ∧
    (∀ (v : PaymentCallback → Bool) (n : Int) (c : PaymentCallback)
        (s : World),
      orderIds (reconcile v n c s).1.payments = orderIds s.payments) := by
  refine ⟨?_, ?_, orderIds_reconcile⟩
  · intro p l l2 hnd hins
    unfold insertPayment at hins
    by_cases hany : l.any (oidMatches p.midtrans_order_id) = true
    · simp [hany] at hins
    · simp [hany] at hins
      have hnotin : p.midtrans_order_id ∉ orderIds l := by
        intro hmem
        rcases List.mem_map.mp hmem with ⟨q, hq, hqe⟩
        exact hany (List.any_eq_true.mpr ⟨q, hq, by simp [oidMatches, hqe]⟩)
      rw [← hins]
      unfold orderIds at hnd hnotin ⊢
      simp only [List.map_cons]
      exact List.nodup_cons.mpr ⟨hnotin, hnd⟩
  · intro p l hmem
    unfold insertPayment
    rcases List.mem_map.mp hmem with ⟨q, hq, hqe⟩
    have : l.any (oidMatches p.midtrans_order_id) = true :=
      List.any_eq_true.mpr ⟨q, hq, by simp [oidMatches, hqe]⟩
    simp [this]

/-- Witness for C5: inserting the example payment into an empty table
keeps order ids duplicate free, and inserting it again is rejected. -/
theorem order_id_unique_and_immutable_witness :
    (orderIds [exPaymentPending]).Nodup ∧
    insertPayment exPaymentPending [exPaymentPending] = none :=
  ⟨order_id_unique_and_immutable.1 exPaymentPending [] [exPaymentPending]
     (by decide) (by decide),
   order_id_unique_and_immutable.2.1 exPaymentPending [exPaymentPending]
     (by decide)⟩

/-- C6: ExtendBoost sets is_boosted and stacks the expiry from the later
of now and the current expiry plus the requested days; when an unexpired
boost already runs to e with now at most e, the new expiry is e plus d,
never now plus d; in particular a seven-day boost at T followed by a
three-day boost at T plus 5 expires at T plus 10. -/
theorem extend_boost_stacks :
    (∀ (now d : Int) (ad : Ad),
      (extendBoost now d ad).is_boosted = true ∧
      (extendBoost now d ad).boost_expires_at
        = some (max now (ad.boost_expires_at.getD now) + d)) ∧
    (∀ (now d e : Int) (ad : Ad),
      ad.boost_expires_at = some e → now ≤ e →
      (extendBoost now d ad).boost_expires_at = some (e + d)) ∧
    (∀ (T : Int) (ad : Ad), ad.boost_expires_at = none →
      (extendBoost (T + 5) 3 (extendBoost T 7 ad)).boost_expires_at
        = some (T + 10)) := by
  refine ⟨?_, ?_, ?_⟩
  · intro now d ad
    refine ⟨rfl, ?_⟩
    unfold extendBoost
    cases ad.boost_expires_at <;> simp
  · intro now d e ad he hle
    unfold extendBoost
    rw [he]
    simp [max_eq_right hle]
  · intro T ad h
    simp only [extendBoost, h]
    have hm : max (T + 5) (T + 7) = T + 7 := max_eq_right (by omega)
    rw [hm]
    congr 1
    omega

/-- Witness for C6: extending the example ad, whose boost runs to time 7,
by three days at time 5 yields expiry 10, not 8. -/
theorem extend_boost_stacks_witness :
    (extendBoost 5 3 exAdBoosted).boost_expires_at = some 10 :=
  extend_boost_stacks.2.1 5 3 7 exAdBoosted rfl (by decide)

/-- C7 counterexample: a raw callback carrying no signature_key is
accepted by the PaymentCallback interface, because the schema declares
signature_key as Optional with default None, so the claim that such a
callback is not accepted fails. -/
theorem signature_key_optional_counterexample :
    rawNoSig.signature_key = none ∧
    (parsePaymentCallback rawNoSig).isSome = true := by
  decide

/-- C7 amended: the callback interface requires exactly order_id and
transaction_status; signature_key is an optional string defaulting to
None, passed through unchanged, so callbacks without it are accepted by
the schema and only a later verification step can reject them. -/
theorem callback_required_fields :
    (∀ r : RawCallback,
      (parsePaymentCallback r).isSome = true ↔
        (r.order_id.isSome = true ∧ r.transaction_status.isSome = true)) ∧
    (∀ (r : RawCallback) (cb : PaymentCallback),
      parsePaymentCallback r = some cb → cb.signature_key = r.signature_key) := by
  constructor
  · intro r
    cases ho : r.order_id <;> cases ht : r.transaction_status <;>
      simp [parsePaymentCallback, ho, ht]
  · intro r cb h
    cases ho : r.order_id with
    | none => simp [parsePaymentCallback, ho] at h
    | some o =>
        cases ht : r.transaction_status with
        | none => simp [parsePaymentCallback, ho, ht] at h
        | some t =>
            simp only [parsePaymentCallback, ho, ht, Option.some.injEq] at h
            rw [← h]

/-- Witness for C7 amended: parsing the example raw callback without a
signature yields a callback whose signature_key is the absent value. -/
theorem callback_required_fields_witness :
    ({ order_id := "ord1", transaction_status := "settlement"
       transaction_id := none, payment_type := none
       gross_amount := none, signature_key := none } : PaymentCallback).signature_key
      = rawNoSig.signature_key :=
  callback_required_fields.2 rawNoSig _ (by decide)

/-- C8: a freshly created Payment has status pending and paid_at unset,
the transition table allows exactly pending to completed, failed or
cancelled and completed to refunded, and every payment row present after
a reconcile either is an untouched old row or reached its status from an
old row along one of those allowed edges. -/
theorem payment_lifecycle :
    (∀ (uid : Nat) (pt : PaymentType) (a : Int) (oid : String)
        (mpid baid : Option Nat) (bd : Int),
      (mkPayment uid pt a oid mpid baid bd).status = PaymentStatus.pending ∧
      (mkPayment uid pt a oid mpid baid bd).paid_at = none) ∧
    (∀ a b : PaymentStatus,
      allowedTransition a b = true ↔
        ((a = PaymentStatus.pending ∧
           (b = PaymentStatus.completed ∨ b = PaymentStatus.failed ∨
             b = PaymentStatus.cancelled)) ∨
         (a = PaymentStatus.completed ∧ b = PaymentStatus.refunded))) ∧
    (∀ (v : PaymentCallback → Bool) (n : Int) (c : PaymentCallback)
        (s : World),
      ∀ q ∈ (reconcile v n c s).1.payments,
        q ∈ s.payments ∨
          ∃ p, p ∈ s.payments ∧ allowedTransition p.status q.status = true) := by
  refine ⟨?_, ?_, reconcile_payment_origin⟩
  · intro uid pt a oid mpid baid bd
    exact ⟨rfl, rfl⟩
  · intro a b
    cases a <;> cases b <;> simp [allowedTransition]

/-- Witness for C8: the payment row of the settled example world reached
its completed status from the pending example payment along an allowed
edge. -/
theorem payment_lifecycle_witness :
    (completePayment 3 cbSettle PaymentStatus.completed exPaymentPending)
        ∈ exWorld.payments ∨
      ∃ p, p ∈ exWorld.payments ∧
        allowedTransition p.status
          (completePayment 3 cbSettle PaymentStatus.completed
            exPaymentPending).status = true :=
  payment_lifecycle.2.2 vAll 3 cbSettle exWorld _ (by decide)

/-- C9 counterexample: the creation schema accepts a membership payment
request that carries both a membership package target and an ad target at
once, so the claim that the two target fields are never both set fails on
the schema. -/
theorem payment_target_exclusivity_counterexample :
    rawBothTargets.payment_type = some PaymentType.membership ∧
    (parsePaymentCreate rawBothTargets).map
        (fun pc => (pc.membership_package_id, pc.boosted_ad_id))
      = some (some 1, some 2) := by
  decide

/-- C9 amended: the PaymentCreate schema validates only the presence of
payment_type and amount and passes both optional target ids through with
no mutual-exclusivity or type-consistency check, so payments with both
targets set, or with the target not matching the payment type, are
accepted; exclusivity is a convention left to callers. -/
theorem payment_create_no_exclusivity_check :
    ∀ (pt : PaymentType) (m b : Option Nat) (a : Int),
      parsePaymentCreate
          { payment_type := some pt, membership_package_id := m
            boosted_ad_id := b, amount := some a }
        = some { payment_type := pt, membership_package_id := m
                 boosted_ad_id := b, amount := a } := by
  intro pt m b a
  rfl

/-- C10: the AdBoost schema accepts exactly the durations from 1 to 30
days inclusive, rejecting 0 and 31. -/
theorem ad_boost_duration_bounds :
    (∀ b : AdBoost,
      adBoostValid b = true ↔
        (1 ≤ b.duration_days ∧ b.duration_days ≤ 30)) ∧
    adBoostValid { ad_id := 1, duration_days := 0 } = false ∧
    adBoostValid { ad_id := 1, duration_days := 31 } = false ∧
    adBoostValid { ad_id := 1, duration_days := 1 } = true ∧
    adBoostValid { ad_id := 1, duration_days := 30 } = true := by
  refine ⟨?_, by decide, by decide, by decide, by decide⟩
  intro b
  simp [adBoostValid]
